import Mathlib

/-!
# Gatewayz monitor: the instrumented probe engine

A shallow embedding of `examples/api/index.js`: the monitored request
(`makeMonitoredRequest`), the monitoring start-up (`startPeriodicMonitoring`) and
the periodic probe cycle (the `setInterval` callback).

The JavaScript code is effectful and asynchronous.  It is embedded as explicit
state passing over a `State` that carries the wall clock and the list of
observable effects (spans, span attributes, log records, dispatched requests,
delays).  The platform is a parameter (`World`): the process environment, what
`JSON.stringify` does with a body, and what the transport does with a request.
A JavaScript exception is the `error` side of `Except JsVal _`.
-/

namespace Monitor

/-! ## JavaScript values -/

/-- The JavaScript values that occur as request bodies, thrown values, span
attribute values and log fields.  `num` carries a finite number (integers are
all the code computes with), `arr` an array of strings, `obj` any other object,
array or function (identified by a reference), `error` an object whose `message`
property is the given string (an `Error` instance). -/
inductive JsVal where
  | undefined
  | null
  | bool (b : Bool)
  | num (n : Int)
  | nan
  | str (s : String)
  | arr (items : List String)
  | obj (ref : Nat)
  | error (message : String)
deriving DecidableEq, Repr

namespace JsVal

/-- ToBoolean: the falsy values are `undefined`, `null`, `false`, zero, `NaN`
and the empty string. -/
def truthy : JsVal → Bool
  | undefined => false
  | null => false
  | bool b => b
  | num n => n != 0
  | nan => false
  | str s => s != ""
  | arr _ => true
  | obj _ => true
  | error _ => true

/-- The message of the `TypeError` raised by a property read on `undefined` or
`null`. -/
def cannotRead (what : String) : JsVal :=
  error ("Cannot read properties of " ++ what ++ " (reading message)")

/-- Reading `v.message`: a `TypeError` on `undefined` and `null`, the message of
an error object, and `undefined` on every value without such a property. -/
def getMessage : JsVal → Except JsVal JsVal
  | undefined => .error (cannotRead "undefined")
  | null => .error (cannotRead "null")
  | error m => .ok (str m)
  | _ => .ok undefined

end JsVal

/-! ## Strings -/

/-- The length of a JavaScript string, in UTF-16 code units. -/
def jsLength (s : String) : Nat :=
  (s.toList.map fun c => if c.val < 0x10000 then 1 else 2).sum

/-- WhiteSpace and LineTerminator code points of ECMAScript, the ones `trim`
and `parseInt` strip. -/
def isStrWhiteSpaceChar (c : Char) : Bool :=
  c.val == 0x9 || c.val == 0xA || c.val == 0xB || c.val == 0xC || c.val == 0xD ||
  c.val == 0x20 || c.val == 0xA0 || c.val == 0x1680 ||
  (0x2000 ≤ c.val && c.val ≤ 0x200A) ||
  c.val == 0x2028 || c.val == 0x2029 || c.val == 0x202F || c.val == 0x205F ||
  c.val == 0x3000 || c.val == 0xFEFF

/-- The method `String.prototype.trim`. -/
def jsTrim (s : String) : String :=
  String.mk
    (((s.toList.dropWhile isStrWhiteSpaceChar).reverse.dropWhile isStrWhiteSpaceChar).reverse)

/-- The method `String.prototype.split` with the separator `","`. -/
def splitComma (s : String) : List String :=
  s.split (fun c => c == ',')

/-! ## The platform -/

/-- The options object handed to `fetch`.  `signal` is the delay of
`AbortSignal.timeout`; `body` is `none` when the property was never assigned. -/
structure RequestOptions where
  method : String
  headers : List (String × String)
  signal : Nat
  body : Option JsVal
deriving DecidableEq, Repr

/-- What `response.text()` does: it settles after `elapsed` milliseconds of
wall-clock change, with the body text or by rejecting with a value. -/
inductive BodyRead where
  | text (s : String) (elapsed : Int)
  | fails (e : JsVal) (elapsed : Int)
deriving DecidableEq, Repr

/-- The response object a resolved `fetch` delivers. -/
structure Response where
  status : Nat
  read : BodyRead
deriving DecidableEq, Repr

/-- The getter `Response.ok` of the Fetch standard: the status is in the range
200 to 299. -/
def Response.ok (r : Response) : Bool := 200 ≤ r.status && r.status ≤ 299

/-- What one `fetch` call does: it settles after `elapsed` milliseconds of
wall-clock change, resolving with a response or rejecting with a value (a
network failure, the timeout of the abort signal, or anything else thrown). -/
inductive FetchBehaviour where
  | resolves (r : Response) (elapsed : Int)
  | rejects (e : JsVal) (elapsed : Int)
deriving DecidableEq, Repr

/-- The platform the module runs on: the process environment, `JSON.stringify`
(which returns a string or `undefined`, or throws), and the transport.  The
transport is asked with the number of requests dispatched before this one, so
that the same URL may behave differently from one request to the next. -/
structure World where
  env : String → Option String
  stringify : JsVal → Except JsVal JsVal
  fetch : Nat → String → RequestOptions → FetchBehaviour

/-- The expression `process.env.KEY || fallback`: the fallback is taken when the
key is unset and when it is the empty string. -/
def envOr (w : World) (key fallback : String) : String :=
  match w.env key with
  | some v => if v != "" then v else fallback
  | none => fallback

/-- Line 11: `const TARGET_API = process.env.TARGET_API || ...`. -/
def TARGET_API (w : World) : String := envOr w "TARGET_API" "https://api.gatewayz.ai"

/-! ## Observable effects -/

/-- One observable effect of the module. -/
inductive Event where
  /-- an invocation of `makeMonitoredRequest` with the arguments as passed
  (`none` / `undefined` for an omitted argument) -/
  | call (endpoint : String) (method : Option String) (body : JsVal)
  /-- `tracer.startSpan(name)`, returning the span handle `span` -/
  | startSpan (span : Nat) (name : String)
  /-- `span.setAttribute(key, value)` -/
  | setAttribute (span : Nat) (key : String) (value : JsVal)
  /-- `span.end()` -/
  | endSpan (span : Nat)
  /-- `logger.info` / `logger.error` with message and fields -/
  | log (level message : String) (fields : List (String × JsVal))
  /-- `fetch(url, options)` -/
  | fetch (url : String) (options : RequestOptions)
  /-- an awaited `setTimeout(resolve, ms)` -/
  | delay (ms : Nat)
  /-- `setInterval(callback, period)` -/
  | setInterval (period : JsVal)
deriving DecidableEq, Repr

/-- The state threaded through the code: the wall clock (`Date.now()`), the
number of spans started so far (the next span handle), the number of requests
dispatched so far, and the effects so far, oldest first. -/
structure State where
  clock : Int
  spans : Nat
  requests : Nat
  trace : List Event
deriving DecidableEq, Repr

namespace State

/-- Record one effect. -/
def emit (σ : State) (e : Event) : State := { σ with trace := σ.trace ++ [e] }

/-- Let the wall clock change by `dt` milliseconds. -/
def advance (σ : State) (dt : Int) : State := { σ with clock := σ.clock + dt }

/-- The call `tracer.startSpan(name)`: a fresh handle. -/
def startSpan (σ : State) (name : String) : Nat × State :=
  (σ.spans, { σ with spans := σ.spans + 1, trace := σ.trace ++ [Event.startSpan σ.spans name] })

end State

/-! ## `makeMonitoredRequest` -/

/-- The object `makeMonitoredRequest` returns.  `body` and `error` are `none`
when the object has no such property. -/
structure Outcome where
  status : Nat
  duration : Int
  body : Option String
  error : Option JsVal
  ok : Bool
deriving DecidableEq, Repr

/-- Lines 36 to 47: the options object, or the value `JSON.stringify` threw. -/
def buildOptions (w : World) (method : String) (body : JsVal) : Except JsVal RequestOptions :=
  let options : RequestOptions :=
    { method := method
      headers := [("Content-Type", "application/json"), ("User-Agent", "Gatewayz-Monitor/1.0")]
      signal := 10000
      body := none }
  if body.truthy && method != "GET" then
    match w.stringify body with
    | .ok payload => .ok { options with body := some payload }
    | .error e => .error e
  else
    .ok options

/-- Lines 33 to 71, the `try` block. -/
def tryBlock (w : World) (span : Nat) (startTime : Int) (endpoint method : String)
    (body : JsVal) (σ : State) : Except JsVal Outcome × State :=
  let url := TARGET_API w ++ endpoint
  let σ := σ.emit (.log "info" ("Making " ++ method ++ " request to " ++ url) [])
  match buildOptions w method body with
  | .error e => (.error e, σ)
  | .ok options =>
    let behaviour := w.fetch σ.requests url options
    let σ := { σ.emit (.fetch url options) with requests := σ.requests + 1 }
    match behaviour with
    | .rejects e dt => (.error e, σ.advance dt)
    | .resolves response dt =>
      let σ := σ.advance dt
      let duration := σ.clock - startTime
      match response.read with
      | .fails e dt => (.error e, σ.advance dt)
      | .text responseText dt =>
        let σ := σ.advance dt
        let σ := σ.emit (.setAttribute span "http.status_code" (.num response.status))
        let σ := σ.emit (.setAttribute span "http.method" (.str method))
        let σ := σ.emit (.setAttribute span "http.url" (.str url))
        let σ := σ.emit (.setAttribute span "http.response_time_ms" (.num duration))
        let σ := σ.emit (.log "info" ("Response from " ++ url)
          [("status", .num response.status), ("duration_ms", .num duration),
           ("endpoint", .str endpoint), ("method", .str method),
           ("response_size", .num (jsLength responseText))])
        (.ok { status := response.status, duration := duration, body := some responseText,
               error := none, ok := response.ok }, σ)

/-- Lines 72 to 89, the `catch` block.  Reading `error.message` raises a
`TypeError` when the caught value is `undefined` or `null`. -/
def catchBlock (w : World) (span : Nat) (startTime : Int) (endpoint method : String)
    (error : JsVal) (σ : State) : Except JsVal Outcome × State :=
  let duration := σ.clock - startTime
  let σ := σ.emit (.setAttribute span "error" (.bool true))
  match error.getMessage with
  | .error typeError => (.error typeError, σ)
  | .ok message =>
    let σ := σ.emit (.setAttribute span "error.message" message)
    let σ := σ.emit (.log "error" ("Error calling " ++ TARGET_API w ++ endpoint)
      [("error", message), ("duration_ms", .num duration),
       ("endpoint", .str endpoint), ("method", .str method)])
    (.ok { status := 0, duration := duration, body := none, error := some message, ok := false }, σ)

/-- Lines 28 to 93.  `methodArg` is `none` and `bodyArg` is `undefined` when the
argument is omitted; the parameter defaults are `GET` and `null`.  The result is
the returned object, or the exception that leaves the function. -/
def makeMonitoredRequest (w : World) (endpoint : String) (methodArg : Option String)
    (bodyArg : JsVal) (σ : State) : Except JsVal Outcome × State :=
  let method := methodArg.getD "GET"
  let body := if bodyArg = JsVal.undefined then JsVal.null else bodyArg
  let σ := σ.emit (.call endpoint methodArg bodyArg)
  let (span, σ) := σ.startSpan (method ++ " " ++ endpoint)
  let startTime := σ.clock
  let settled : Except JsVal Outcome × State :=
    match tryBlock w span startTime endpoint method body σ with
    | (.ok outcome, σ) => (.ok outcome, σ)
    | (.error e, σ) => catchBlock w span startTime endpoint method e σ
  (settled.1, settled.2.emit (.endSpan span))

/-! ## `startPeriodicMonitoring` and the probe cycle -/

/-- The value of `c` as a digit of the given radix, if it is one. -/
def digitValue (radix : Nat) (c : Char) : Option Nat :=
  let v : Option Nat :=
    if '0' ≤ c ∧ c ≤ '9' then some (c.toNat - '0'.toNat)
    else if 'a' ≤ c ∧ c ≤ 'z' then some (c.toNat - 'a'.toNat + 10)
    else if 'A' ≤ c ∧ c ≤ 'Z' then some (c.toNat - 'A'.toNat + 10)
    else none
  v.filter (fun d => d < radix)

/-- The function `parseInt(string)` of ECMAScript, called without a radix: leading
white space is skipped, a sign is read, a leading `0x` or `0X` selects radix 16,
and the longest run of digits is evaluated; `NaN` when that run is empty.  The
result is the mathematical integer (the Number value when it is below 2^53 in
absolute value; `-0` is `0`). -/
def parseInt (s : String) : JsVal :=
  let S := s.toList.dropWhile isStrWhiteSpaceChar
  let negative : Bool := S.head? = some '-'
  let S := if S.head? = some '-' ∨ S.head? = some '+' then S.tail else S
  let hex : Bool := S.take 2 = ['0', 'x'] ∨ S.take 2 = ['0', 'X']
  let R := if hex then 16 else 10
  let S := if hex then S.drop 2 else S
  let Z := S.takeWhile (fun c => (digitValue R c).isSome)
  if Z = [] then JsVal.nan
  else
    let mathInt : Nat := Z.foldl (fun acc c => acc * R + (digitValue R c).getD 0) 0
    JsVal.num (if negative then - (mathInt : Int) else mathInt)

/-- Line 97: `parseInt(process.env.MONITOR_INTERVAL_MS || ...)`. -/
def INTERVAL_MS (w : World) : JsVal := parseInt (envOr w "MONITOR_INTERVAL_MS" "30000")

/-- Line 98: the endpoint list. -/
def endpoints (w : World) : List String :=
  splitComma (envOr w "MONITOR_ENDPOINTS" "/,/health,/status")

/-- Lines 96 to 116 without the callback body: the start-up log record and the
registration of the timer with its period. -/
def startPeriodicMonitoring (w : World) (σ : State) : State :=
  let σ := σ.emit (.log "info" ("Starting periodic monitoring of " ++ TARGET_API w)
    [("interval_ms", INTERVAL_MS w), ("endpoints", .arr (endpoints w))])
  σ.emit (.setInterval (INTERVAL_MS w))

/-- The period handed to `setInterval` by `startPeriodicMonitoring`, if any. -/
def timerPeriod (trace : List Event) : Option JsVal :=
  trace.findSome? fun e => match e with
    | .setInterval period => some period
    | _ => none

/-- Lines 108 to 112, the `for` loop: one awaited request and one awaited delay
of 1000 ms per endpoint.  An exception leaving a request leaves the loop. -/
def probeEndpoints (w : World) : List String → State → Except JsVal Unit × State
  | [], σ => (.ok (), σ)
  | endpoint :: rest, σ =>
    match makeMonitoredRequest w (jsTrim endpoint) (some "GET") JsVal.undefined σ with
    | (.error e, σ) => (.error e, σ)
    | (.ok _, σ) => probeEndpoints w rest ((σ.emit (.delay 1000)).advance 1000)

/-- Lines 105 to 115, the `setInterval` callback: one probe cycle. -/
def probeCycle (w : World) (endpoints : List String) (σ : State) : Except JsVal Unit × State :=
  let (span, σ) := σ.startSpan "periodic-health-check"
  match probeEndpoints w endpoints σ with
  | (.error e, σ) => (.error e, σ)
  | (.ok _, σ) => (.ok (), σ.emit (.endSpan span))

/-! ## Reading a trace -/

/-- The effects a run added to the trace it started from. -/
def effectsSince (before after : State) : List Event := after.trace.drop before.trace.length

/-- The events `tracer.startSpan`. -/
def Event.isStartSpan : Event → Bool
  | .startSpan _ _ => true
  | _ => false

/-- The events `span.end()`. -/
def Event.isEndSpan : Event → Bool
  | .endSpan _ => true
  | _ => false

/-- The error-level log records. -/
def Event.isErrorLog : Event → Bool
  | .log level _ _ => level == "error"
  | _ => false

/-- The dispatched requests. -/
def Event.isFetch : Event → Bool
  | .fetch _ _ => true
  | _ => false

/-- The exception raised inside the `try` block of a call made in state `σ`, if
one is raised: by `JSON.stringify`, by `fetch`, or by `response.text()`. -/
def raised (w : World) (endpoint : String) (methodArg : Option String) (bodyArg : JsVal)
    (σ : State) : Option JsVal :=
  let method := methodArg.getD "GET"
  let body := if bodyArg = JsVal.undefined then JsVal.null else bodyArg
  match buildOptions w method body with
  | .error e => some e
  | .ok options =>
    match w.fetch σ.requests (TARGET_API w ++ endpoint) options with
    | .rejects e _ => some e
    | .resolves response _ =>
      match response.read with
      | .fails e _ => some e
      | .text _ _ => none

/-- The effects of one call of `makeMonitoredRequest` made in state `σ`. -/
def requestEffects (w : World) (endpoint : String) (methodArg : Option String) (bodyArg : JsVal)
    (σ : State) : List Event :=
  effectsSince σ (makeMonitoredRequest w endpoint methodArg bodyArg σ).2

/-! ## Sample platforms -/

/-- A platform with an empty environment whose transport behaves the same way
for every request. -/
def uniformWorld (stringify : JsVal → Except JsVal JsVal) (behaviour : FetchBehaviour) : World :=
  { env := fun _ => none, stringify := stringify, fetch := fun _ _ _ => behaviour }

/-- The state of a fresh process at time 0. -/
def initial : State := { clock := 0, spans := 0, requests := 0, trace := [] }

/-- A `JSON.stringify` for the examples.  The object 0 has a `toJSON` method that
throws `null`; the object 1 has one that throws `new Error()`, whose message is
the empty string. -/
def sampleStringify : JsVal → Except JsVal JsVal
  | .obj 0 => .error JsVal.null
  | .obj 1 => .error (JsVal.error "")
  | .num 0 => .ok (.str "0")
  | .bool true => .ok (.str "true")
  | .bool false => .ok (.str "false")
  | .str "" => .ok (.str "\"\"")
  | _ => .ok JsVal.undefined

/-- A transport that answers 200 after 50 ms; reading the body `ok` takes
another 100 ms. -/
def respondsOk : FetchBehaviour := .resolves { status := 200, read := .text "ok" 100 } 50

/-- A transport that answers 404 after 20 ms with an empty body. -/
def respondsNotFound : FetchBehaviour := .resolves { status := 404, read := .text "" 0 } 20

/-- A transport whose connection fails after 3 ms. -/
def refusesConnection : FetchBehaviour := .rejects (JsVal.error "fetch failed") 3

/-- A transport that answers 200 after 20 ms and then loses the connection while
the body is read. -/
def breaksWhileReading : FetchBehaviour :=
  .resolves { status := 200, read := .fails (JsVal.error "terminated") 7 } 20

/-- The platform whose transport refuses every connection. -/
def refusingWorld : World := uniformWorld sampleStringify refusesConnection

/-- The platform whose transport answers 404 to every request. -/
def notFoundWorld : World := uniformWorld sampleStringify respondsNotFound

/-- The platform whose transport answers 200 to every request. -/
def healthyWorld : World := uniformWorld sampleStringify respondsOk

/-- The platform whose transport loses every connection while the body is read. -/
def breakingWorld : World := uniformWorld sampleStringify breaksWhileReading

/-! ## Auxiliary definitions for the statements -/

/-- The options object of a request without payload. -/
def bareOptions (method : String) : RequestOptions :=
  { method := method
    headers := [("Content-Type", "application/json"), ("User-Agent", "Gatewayz-Monitor/1.0")]
    signal := 10000
    body := none }

/-- The characters of a decimal numeral. -/
def IsDecimalDigit (c : Char) : Prop := ∃ d, d < 10 ∧ c = Nat.digitChar d

/-- One step of the evaluation of a run of decimal digits. -/
def decimalStep (acc : Nat) (c : Char) : Nat := acc * 10 + (digitValue 10 c).getD 0

/-- A platform whose environment holds at most the key `MONITOR_INTERVAL_MS`. -/
def intervalWorld (value : Option String) : World :=
  { env := fun key => if key = "MONITOR_INTERVAL_MS" then value else none
    stringify := sampleStringify
    fetch := fun _ _ _ => respondsOk }

/-- The effects by which the schedule of a cycle is read: the invocations of
`makeMonitoredRequest`, the delays, and the start and end of the span of the
cycle itself (the spans of the requests have other handles). -/
def Event.inSchedule (cycleSpan : Nat) : Event → Bool
  | .call _ _ _ => true
  | .delay _ => true
  | .startSpan span _ => span == cycleSpan
  | .endSpan span => span == cycleSpan
  | _ => false

/-- The invocations of `makeMonitoredRequest`. -/
def Event.isCall : Event → Bool
  | .call _ _ _ => true
  | _ => false

/-- The string `t` is `s` without its leading and trailing white space: `s` is
`t` between two runs of white space, and `t` neither starts nor ends with white
space. -/
def IsTrimOf (s t : String) : Prop :=
  ∃ before after, s.toList = before ++ t.toList ++ after ∧
    (∀ c ∈ before, isStrWhiteSpaceChar c = true) ∧
    (∀ c ∈ after, isStrWhiteSpaceChar c = true) ∧
    (∀ c, t.toList.head? = some c → isStrWhiteSpaceChar c = false) ∧
    (∀ c, t.toList.getLast? = some c → isStrWhiteSpaceChar c = false)

/-- The platform whose transport rejects every request with `null`. -/
def nullRejectingWorld : World := uniformWorld sampleStringify (.rejects JsVal.null 3)

/-! ## The monitored request: containment of errors and the span -/

/-- C1.  A `toJSON` method that throws `null` makes `JSON.stringify` throw `null`;
the `catch` block then reads `error.message` of `null`, and the `TypeError` of
that read leaves `makeMonitoredRequest`: no outcome object is returned. -/
theorem makeMonitoredRequest_throws_on_null :
    (makeMonitoredRequest healthyWorld "/x" (some "POST") (JsVal.obj 0) initial).1 =
      .error (JsVal.cannotRead "null") := by
  rfl

/-- C2.  Every call of `makeMonitoredRequest` starts exactly one span, named after
the method and the endpoint, and ends exactly one span, which is that one; the
`end()` is the last effect of the call.  This holds on every path: a response of
any status, a rejected `fetch`, a failed body read, a failed serialization, and
also when the `catch` block itself throws. -/
theorem span_started_once_ended_once (w : World) (endpoint : String) (methodArg : Option String)
    (bodyArg : JsVal) (σ : State) :
    (requestEffects w endpoint methodArg bodyArg σ).countP Event.isStartSpan = 1 ∧
    (requestEffects w endpoint methodArg bodyArg σ).countP Event.isEndSpan = 1 ∧
    Event.startSpan σ.spans (methodArg.getD "GET" ++ " " ++ endpoint) ∈
      requestEffects w endpoint methodArg bodyArg σ ∧
    (requestEffects w endpoint methodArg bodyArg σ).getLast? = some (Event.endSpan σ.spans) := by
  simp only [requestEffects, makeMonitoredRequest, tryBlock, catchBlock, effectsSince,
    State.emit, State.startSpan, State.advance]
  cases hb : buildOptions w (methodArg.getD "GET")
      (if bodyArg = JsVal.undefined then JsVal.null else bodyArg) with
  | error e =>
    cases hm : e.getMessage <;>
      simp [hm, List.append_assoc, List.countP_cons, Event.isStartSpan, Event.isEndSpan]
  | ok options =>
    cases hf : w.fetch σ.requests (TARGET_API w ++ endpoint) options with
    | rejects e dt =>
      cases hm : e.getMessage <;>
        simp [hm, hf, List.append_assoc, List.countP_cons, Event.isStartSpan, Event.isEndSpan]
    | resolves response dt =>
      cases hr : response.read with
      | fails e dt2 =>
        cases hm : e.getMessage <;>
          simp [hm, hr, hf, List.append_assoc, List.countP_cons, Event.isStartSpan,
            Event.isEndSpan]
      | text s dt2 =>
        simp [hr, hf, List.append_assoc, List.countP_cons, Event.isStartSpan, Event.isEndSpan]

/-! ## The monitored request: the failure path -/

/-- C3, counterexample.  A body whose `toJSON` throws `new Error()` fails to
serialize with an exception whose message is the empty string: the outcome has
status 0 and `ok` false, but its error message is empty. -/
theorem failure_message_may_be_empty :
    (makeMonitoredRequest healthyWorld "/x" (some "POST") (JsVal.obj 1) initial).1 =
      .ok { status := 0, duration := 0, body := none, error := some (.str ""), ok := false } := by
  rfl

/-- C3, amended.  When a value other than `undefined` and `null` is thrown inside
the `try` block (by the serialization, by `fetch`, by the body read), reading its
`message` succeeds with some `m` (the message string of an error object), and:
the call returns the outcome with status 0, `ok` false and `error` equal to `m`,
whose duration is the clock at the failure minus the clock at the start; the span
gets `error = true` and `error.message = m`; exactly one error-level log record is
emitted, carrying `m`, the duration, the endpoint and the method.  The message is
as empty or as full as the exception makes it. -/
theorem failure_outcome (w : World) (endpoint : String) (methodArg : Option String)
    (bodyArg : JsVal) (σ : State) (e : JsVal)
    (hraised : raised w endpoint methodArg bodyArg σ = some e)
    (hundef : e ≠ JsVal.undefined) (hnull : e ≠ JsVal.null) :
    ∃ m, e.getMessage = .ok m ∧ (∀ text, e = JsVal.error text → m = JsVal.str text) ∧
      (makeMonitoredRequest w endpoint methodArg bodyArg σ).1 =
        .ok { status := 0
              duration := (makeMonitoredRequest w endpoint methodArg bodyArg σ).2.clock - σ.clock
              body := none, error := some m, ok := false } ∧
      Event.setAttribute σ.spans "error" (.bool true) ∈
        requestEffects w endpoint methodArg bodyArg σ ∧
      Event.setAttribute σ.spans "error.message" m ∈
        requestEffects w endpoint methodArg bodyArg σ ∧
      (requestEffects w endpoint methodArg bodyArg σ).filter Event.isErrorLog =
        [Event.log "error" ("Error calling " ++ TARGET_API w ++ endpoint)
          [("error", m),
           ("duration_ms",
             .num ((makeMonitoredRequest w endpoint methodArg bodyArg σ).2.clock - σ.clock)),
           ("endpoint", .str endpoint), ("method", .str (methodArg.getD "GET"))]] := by
  obtain ⟨m, hm, htext⟩ : ∃ m, e.getMessage = .ok m ∧
      (∀ text, e = JsVal.error text → m = JsVal.str text) := by
    cases e <;> simp [JsVal.getMessage] at *
  refine ⟨m, hm, htext, ?_⟩
  simp only [raised] at hraised
  simp only [requestEffects, makeMonitoredRequest, tryBlock, catchBlock, effectsSince,
    State.emit, State.startSpan, State.advance]
  cases hb : buildOptions w (methodArg.getD "GET")
      (if bodyArg = JsVal.undefined then JsVal.null else bodyArg) with
  | error e1 =>
    simp only [hb, Option.some.injEq] at hraised
    subst hraised
    simp [hm, List.append_assoc, List.filter_cons, Event.isErrorLog]
  | ok options =>
    simp only [hb] at hraised
    cases hf : w.fetch σ.requests (TARGET_API w ++ endpoint) options with
    | rejects e1 dt =>
      simp only [hf, Option.some.injEq] at hraised
      subst hraised
      simp [hm, hf, List.append_assoc, List.filter_cons, Event.isErrorLog]
    | resolves response dt =>
      simp only [hf] at hraised
      cases hr : response.read with
      | fails e1 dt2 =>
        simp only [hr, Option.some.injEq] at hraised
        subst hraised
        simp [hm, hr, hf, List.append_assoc, List.filter_cons, Event.isErrorLog]
      | text s dt2 =>
        simp [hr] at hraised

/-- C3, witness: a refused connection. -/
theorem failure_outcome_witness :
    raised refusingWorld "/health" none JsVal.undefined initial =
      some (JsVal.error "fetch failed") ∧
    JsVal.error "fetch failed" ≠ JsVal.undefined ∧ JsVal.error "fetch failed" ≠ JsVal.null ∧
    ∃ m, (JsVal.error "fetch failed").getMessage = .ok m ∧
      (∀ text, JsVal.error "fetch failed" = JsVal.error text → m = JsVal.str text) ∧
      (makeMonitoredRequest refusingWorld "/health" none JsVal.undefined initial).1 =
        .ok { status := 0
              duration := (makeMonitoredRequest refusingWorld "/health" none JsVal.undefined
                initial).2.clock - initial.clock
              body := none, error := some m, ok := false } ∧
      Event.setAttribute initial.spans "error" (.bool true) ∈
        requestEffects refusingWorld "/health" none JsVal.undefined initial ∧
      Event.setAttribute initial.spans "error.message" m ∈
        requestEffects refusingWorld "/health" none JsVal.undefined initial ∧
      (requestEffects refusingWorld "/health" none JsVal.undefined initial).filter
          Event.isErrorLog =
        [Event.log "error" ("Error calling " ++ TARGET_API refusingWorld ++ "/health")
          [("error", m),
           ("duration_ms",
             .num ((makeMonitoredRequest refusingWorld "/health" none JsVal.undefined
               initial).2.clock - initial.clock)),
           ("endpoint", .str "/health"), ("method", .str ((none : Option String).getD "GET"))]] :=
  ⟨rfl, by decide, by decide,
   failure_outcome refusingWorld "/health" none JsVal.undefined initial
    (JsVal.error "fetch failed") rfl (by decide) (by decide)⟩

/-! ## The monitored request: the response path -/

/-- C4.  Whenever `makeMonitoredRequest` returns an outcome whose status is not 0,
the request was dispatched and the transport resolved it with a response; the
status of the outcome is the status of that response, and the `ok` flag is true
exactly when the status lies in the range from 200 up to, not including, 300. -/
theorem status_and_ok_mirror_response (w : World) (endpoint : String)
    (methodArg : Option String) (bodyArg : JsVal) (σ : State) (o : Outcome)
    (hreturned : (makeMonitoredRequest w endpoint methodArg bodyArg σ).1 = .ok o)
    (hstatus : o.status ≠ 0) :
    o.ok = decide (200 ≤ o.status ∧ o.status < 300) ∧
    ∃ options response dt,
      buildOptions w (methodArg.getD "GET")
        (if bodyArg = JsVal.undefined then JsVal.null else bodyArg) = .ok options ∧
      w.fetch σ.requests (TARGET_API w ++ endpoint) options = .resolves response dt ∧
      o.status = response.status := by
  simp only [makeMonitoredRequest, tryBlock, catchBlock, State.emit, State.startSpan,
    State.advance] at hreturned
  cases hb : buildOptions w (methodArg.getD "GET")
      (if bodyArg = JsVal.undefined then JsVal.null else bodyArg) with
  | error e =>
    cases hm : e.getMessage <;> simp [hb, hm] at hreturned
    subst hreturned
    simp at hstatus
  | ok options =>
    cases hf : w.fetch σ.requests (TARGET_API w ++ endpoint) options with
    | rejects e dt =>
      cases hm : e.getMessage <;> simp [hb, hf, hm] at hreturned
      subst hreturned
      simp at hstatus
    | resolves response dt =>
      cases hr : response.read with
      | fails e dt2 =>
        cases hm : e.getMessage <;> simp [hb, hf, hr, hm] at hreturned
        subst hreturned
        simp at hstatus
      | text s dt2 =>
        simp [hb, hf, hr] at hreturned
        subst hreturned
        refine ⟨?_, options, response, dt, rfl, hf, rfl⟩
        simp only [Response.ok]
        rw [Bool.eq_iff_iff]
        simp
        omega

/-- C4, witness: a 404 response. -/
theorem status_and_ok_mirror_response_witness :
    (makeMonitoredRequest notFoundWorld "/missing" none JsVal.undefined initial).1 =
      .ok { status := 404, duration := 20, body := some "", error := none, ok := false } ∧
    ({ status := 404, duration := 20, body := some "", error := none, ok := false } :
      Outcome).status ≠ 0 ∧
    ({ status := 404, duration := 20, body := some "", error := none, ok := false } : Outcome).ok =
      decide (200 ≤ 404 ∧ 404 < 300) ∧
    ∃ options response dt,
      buildOptions notFoundWorld ((none : Option String).getD "GET")
        (if JsVal.undefined = JsVal.undefined then JsVal.null else JsVal.undefined) = .ok options ∧
      notFoundWorld.fetch initial.requests (TARGET_API notFoundWorld ++ "/missing") options =
        .resolves response dt ∧
      ({ status := 404, duration := 20, body := some "", error := none, ok := false } :
        Outcome).status = response.status :=
  ⟨rfl, by decide,
   status_and_ok_mirror_response notFoundWorld "/missing" none JsVal.undefined initial
    { status := 404, duration := 20, body := some "", error := none, ok := false } rfl
    (by decide)⟩

/-- C6, counterexample.  The transport delivers a response with status 200 and
the read of its body fails: the outcome has status 0 and carries an error
message, although a response was received. -/
theorem response_received_yet_error_reported :
    breakingWorld.fetch initial.requests (TARGET_API breakingWorld ++ "/x")
        { method := "GET"
          headers := [("Content-Type", "application/json"), ("User-Agent", "Gatewayz-Monitor/1.0")]
          signal := 10000, body := none } =
      .resolves { status := 200, read := .fails (JsVal.error "terminated") 7 } 20 ∧
    (makeMonitoredRequest breakingWorld "/x" none JsVal.undefined initial).1 =
      .ok { status := 0, duration := 27, body := none, error := some (.str "terminated"),
            ok := false } := by
  exact ⟨rfl, rfl⟩

/-- C6, amended.  A returned outcome has an `error` property exactly when an
exception was raised inside the `try` block: by the serialization, by `fetch`
(no response received), or by the read of the body of a response that was
received.  Whenever the transport delivered a response and its body was read to
the end, the call returns an outcome without `error` whose status is the status
of that response. -/
theorem error_iff_exception_raised (w : World) (endpoint : String) (methodArg : Option String)
    (bodyArg : JsVal) (σ : State) :
    (∀ o, (makeMonitoredRequest w endpoint methodArg bodyArg σ).1 = .ok o →
      (o.error.isSome = true ↔ (raised w endpoint methodArg bodyArg σ).isSome = true)) ∧
    (∀ options response dt text dt2,
      buildOptions w (methodArg.getD "GET")
        (if bodyArg = JsVal.undefined then JsVal.null else bodyArg) = .ok options →
      w.fetch σ.requests (TARGET_API w ++ endpoint) options = .resolves response dt →
      response.read = .text text dt2 →
      ∃ o, (makeMonitoredRequest w endpoint methodArg bodyArg σ).1 = .ok o ∧
        o.error = none ∧ o.status = response.status) := by
  constructor
  · intro o hreturned
    simp only [makeMonitoredRequest, tryBlock, catchBlock, State.emit, State.startSpan,
      State.advance] at hreturned
    simp only [raised]
    cases hb : buildOptions w (methodArg.getD "GET")
        (if bodyArg = JsVal.undefined then JsVal.null else bodyArg) with
    | error e =>
      cases hm : e.getMessage <;> simp [hb, hm] at hreturned
      subst hreturned
      simp
    | ok options =>
      cases hf : w.fetch σ.requests (TARGET_API w ++ endpoint) options with
      | rejects e dt =>
        cases hm : e.getMessage <;> simp [hb, hf, hm] at hreturned
        subst hreturned
        simp [hf]
      | resolves response dt =>
        cases hr : response.read with
        | fails e dt2 =>
          cases hm : e.getMessage <;> simp [hb, hf, hr, hm] at hreturned
          subst hreturned
          simp [hf, hr]
        | text s dt2 =>
          simp [hb, hf, hr] at hreturned
          subst hreturned
          simp [hf, hr]
  · intro options response dt text dt2 hb hf hr
    simp [makeMonitoredRequest, tryBlock, State.emit, State.startSpan, State.advance, hb, hf, hr]

/-- C6, witness: a 200 response whose body is read to the end. -/
theorem error_iff_exception_raised_witness :
    (∀ o, (makeMonitoredRequest healthyWorld "/x" none JsVal.undefined initial).1 = .ok o →
      (o.error.isSome = true ↔
        (raised healthyWorld "/x" none JsVal.undefined initial).isSome = true)) ∧
    ∃ o, (makeMonitoredRequest healthyWorld "/x" none JsVal.undefined initial).1 = .ok o ∧
      o.error = none ∧ o.status = 200 :=
  ⟨(error_iff_exception_raised healthyWorld "/x" none JsVal.undefined initial).1,
   (error_iff_exception_raised healthyWorld "/x" none JsVal.undefined initial).2
     { method := "GET"
       headers := [("Content-Type", "application/json"), ("User-Agent", "Gatewayz-Monitor/1.0")]
       signal := 10000, body := none }
     { status := 200, read := .text "ok" 100 } 50 "ok" 100 rfl rfl rfl⟩

/-- C10, counterexample.  The response arrives 50 ms after the start and reading
its body takes another 100 ms, on a clock that never goes back: the call
finishes at 150 ms, and the duration in the outcome, in the span attribute and in
the log record is 50, less than the 150 ms from the start to the end of the
body read. -/
theorem duration_excludes_body_read :
    makeMonitoredRequest healthyWorld "/x" none JsVal.undefined initial =
      (.ok { status := 200, duration := 50, body := some "ok", error := none, ok := true },
       { clock := 150, spans := 1, requests := 1
         trace :=
          [.call "/x" none JsVal.undefined,
           .startSpan 0 "GET /x",
           .log "info" "Making GET request to https://api.gatewayz.ai/x" [],
           .fetch "https://api.gatewayz.ai/x"
             { method := "GET"
               headers :=
                 [("Content-Type", "application/json"), ("User-Agent", "Gatewayz-Monitor/1.0")]
               signal := 10000, body := none },
           .setAttribute 0 "http.status_code" (.num 200),
           .setAttribute 0 "http.method" (.str "GET"),
           .setAttribute 0 "http.url" (.str "https://api.gatewayz.ai/x"),
           .setAttribute 0 "http.response_time_ms" (.num 50),
           .log "info" "Response from https://api.gatewayz.ai/x"
             [("status", .num 200), ("duration_ms", .num 50), ("endpoint", .str "/x"),
              ("method", .str "GET"), ("response_size", .num 2)],
           .endSpan 0] }) ∧
    ¬ ((makeMonitoredRequest healthyWorld "/x" none JsVal.undefined initial).2.clock
        - initial.clock ≤ 50) := by
  refine ⟨rfl, ?_⟩
  decide

/-- C10, amended.  When the transport resolves the request after `dt` and the
body is read after a further `dt2`, the duration in the outcome, in the span
attribute `http.response_time_ms` and in the log record is `dt`: the clock when
`fetch` resolved minus the clock at the start, read before the body is read.  It
is non-negative when the clock did not go back during `fetch`, and it leaves out
the `dt2` of the body read, which the clock at the end of the call includes. -/
theorem duration_is_time_to_response (w : World) (endpoint : String)
    (methodArg : Option String) (bodyArg : JsVal) (σ : State)
    (options : RequestOptions) (response : Response) (dt dt2 : Int) (text : String)
    (hoptions : buildOptions w (methodArg.getD "GET")
        (if bodyArg = JsVal.undefined then JsVal.null else bodyArg) = .ok options)
    (hfetch : w.fetch σ.requests (TARGET_API w ++ endpoint) options = .resolves response dt)
    (hread : response.read = .text text dt2) :
    (makeMonitoredRequest w endpoint methodArg bodyArg σ).1 =
      .ok { status := response.status, duration := dt, body := some text, error := none,
            ok := response.ok } ∧
    Event.setAttribute σ.spans "http.response_time_ms" (.num dt) ∈
      requestEffects w endpoint methodArg bodyArg σ ∧
    Event.log "info" ("Response from " ++ (TARGET_API w ++ endpoint))
        [("status", .num response.status), ("duration_ms", .num dt), ("endpoint", .str endpoint),
         ("method", .str (methodArg.getD "GET")), ("response_size", .num (jsLength text))] ∈
      requestEffects w endpoint methodArg bodyArg σ ∧
    (makeMonitoredRequest w endpoint methodArg bodyArg σ).2.clock = σ.clock + dt + dt2 ∧
    (0 ≤ dt → ∃ n : Nat, dt = n) := by
  refine ⟨?_, ?_, ?_, ?_, fun h => ⟨dt.toNat, (Int.toNat_of_nonneg h).symm⟩⟩ <;>
    simp [requestEffects, effectsSince, makeMonitoredRequest, tryBlock, State.emit,
      State.startSpan, State.advance, hoptions, hfetch, hread]

/-- C10, witness: the response after 50 ms, the body after another 100 ms. -/
theorem duration_is_time_to_response_witness :
    (makeMonitoredRequest healthyWorld "/x" none JsVal.undefined initial).1 =
      .ok { status := 200, duration := 50, body := some "ok", error := none,
            ok := Response.ok { status := 200, read := .text "ok" 100 } } ∧
    Event.setAttribute initial.spans "http.response_time_ms" (.num 50) ∈
      requestEffects healthyWorld "/x" none JsVal.undefined initial ∧
    Event.log "info" ("Response from " ++ (TARGET_API healthyWorld ++ "/x"))
        [("status", .num (200 : Nat)), ("duration_ms", .num 50), ("endpoint", .str "/x"),
         ("method", .str ((none : Option String).getD "GET")),
         ("response_size", .num (jsLength "ok"))] ∈
      requestEffects healthyWorld "/x" none JsVal.undefined initial ∧
    (makeMonitoredRequest healthyWorld "/x" none JsVal.undefined initial).2.clock =
      initial.clock + 50 + 100 ∧
    ((0 : Int) ≤ 50 → ∃ n : Nat, (50 : Int) = n) :=
  duration_is_time_to_response healthyWorld "/x" none JsVal.undefined initial
    { method := "GET"
      headers := [("Content-Type", "application/json"), ("User-Agent", "Gatewayz-Monitor/1.0")]
      signal := 10000, body := none }
    { status := 200, read := .text "ok" 100 } 50 100 "ok" rfl rfl rfl

/-! ## The monitored request: the request options -/

/-- C7, counterexample.  With method `POST` and the bodies `0`, `false` and the
empty string, which are not `null` and which `JSON.stringify` serializes, the
request is dispatched with options that contain no payload. -/
theorem falsy_body_is_not_sent :
    (sampleStringify (.num 0) = .ok (.str "0") ∧
      (requestEffects healthyWorld "/x" (some "POST") (.num 0) initial).filter Event.isFetch =
        [Event.fetch "https://api.gatewayz.ai/x" (bareOptions "POST")]) ∧
    (sampleStringify (.bool false) = .ok (.str "false") ∧
      (requestEffects healthyWorld "/x" (some "POST") (.bool false) initial).filter Event.isFetch =
        [Event.fetch "https://api.gatewayz.ai/x" (bareOptions "POST")]) ∧
    (sampleStringify (.str "") = .ok (.str "\"\"") ∧
      (requestEffects healthyWorld "/x" (some "POST") (.str "") initial).filter Event.isFetch =
        [Event.fetch "https://api.gatewayz.ai/x" (bareOptions "POST")]) := by
  exact ⟨⟨rfl, rfl⟩, ⟨rfl, rfl⟩, ⟨rfl, rfl⟩⟩

/-- C7, amended.  For every method other than `GET`: when the body is truthy
and `JSON.stringify` returns a payload for it, the call dispatches exactly one
request, whose options carry that payload; when the body is falsy (`undefined`,
`null`, `false`, `0`, `NaN`, the empty string) it dispatches exactly one request,
whose options carry no payload. -/
theorem truthy_body_is_serialized (w : World) (endpoint method : String) (body : JsVal)
    (σ : State) (hmethod : method ≠ "GET") :
    (body.truthy = true → ∀ payload, w.stringify body = .ok payload →
      (requestEffects w endpoint (some method) body σ).filter Event.isFetch =
        [Event.fetch (TARGET_API w ++ endpoint) { bareOptions method with body := some payload }]) ∧
    (body.truthy = false →
      (requestEffects w endpoint (some method) body σ).filter Event.isFetch =
        [Event.fetch (TARGET_API w ++ endpoint) (bareOptions method)]) := by
  constructor
  · intro htruthy payload hjson
    have hdef : body ≠ JsVal.undefined := by
      rintro rfl
      simp [JsVal.truthy] at htruthy
    have hb : buildOptions w method body =
        .ok { bareOptions method with body := some payload } := by
      simp [buildOptions, htruthy, hmethod, hjson, bareOptions]
    simp only [requestEffects, makeMonitoredRequest, tryBlock, catchBlock, effectsSince,
      State.emit, State.startSpan, State.advance, Option.getD_some, if_neg hdef, hb]
    cases hf : w.fetch σ.requests (TARGET_API w ++ endpoint)
        { bareOptions method with body := some payload } with
    | rejects e dt =>
      cases hm : e.getMessage <;>
        simp [hm, hf, List.append_assoc, List.filter_cons, Event.isFetch]
    | resolves response dt =>
      cases hr : response.read with
      | fails e dt2 =>
        cases hm : e.getMessage <;>
          simp [hm, hr, hf, List.append_assoc, List.filter_cons, Event.isFetch]
      | text s dt2 =>
        simp [hr, hf, List.append_assoc, List.filter_cons, Event.isFetch]
  · intro hfalsy
    have hfalsy2 : (if body = JsVal.undefined then JsVal.null else body).truthy = false := by
      split
      · rfl
      · exact hfalsy
    have hb : buildOptions w method (if body = JsVal.undefined then JsVal.null else body) =
        .ok (bareOptions method) := by
      simp [buildOptions, hfalsy2, bareOptions]
    simp only [requestEffects, makeMonitoredRequest, tryBlock, catchBlock, effectsSince,
      State.emit, State.startSpan, State.advance, Option.getD_some, hb]
    cases hf : w.fetch σ.requests (TARGET_API w ++ endpoint) (bareOptions method) with
    | rejects e dt =>
      cases hm : e.getMessage <;>
        simp [hm, hf, List.append_assoc, List.filter_cons, Event.isFetch]
    | resolves response dt =>
      cases hr : response.read with
      | fails e dt2 =>
        cases hm : e.getMessage <;>
          simp [hm, hr, hf, List.append_assoc, List.filter_cons, Event.isFetch]
      | text s dt2 =>
        simp [hr, hf, List.append_assoc, List.filter_cons, Event.isFetch]

/-- C7, witness: `POST` with the body `true`. -/
theorem truthy_body_is_serialized_witness :
    "POST" ≠ "GET" ∧ (JsVal.bool true).truthy = true ∧
    healthyWorld.stringify (.bool true) = .ok (.str "true") ∧
    (requestEffects healthyWorld "/x" (some "POST") (.bool true) initial).filter Event.isFetch =
      [Event.fetch (TARGET_API healthyWorld ++ "/x")
        { bareOptions "POST" with body := some (.str "true") }] :=
  ⟨by decide, rfl, rfl,
   (truthy_body_is_serialized healthyWorld "/x" "POST" (.bool true) initial (by decide)).1 rfl
     (.str "true") rfl⟩

/-- C8.  With the method `GET`, passed or defaulted, and with any body, the call
dispatches exactly one request, and the options of that request carry no
payload: `JSON.stringify` is not applied to the body. -/
theorem get_request_has_no_payload (w : World) (endpoint : String) (bodyArg : JsVal)
    (σ : State) :
    (requestEffects w endpoint (some "GET") bodyArg σ).filter Event.isFetch =
      [Event.fetch (TARGET_API w ++ endpoint) (bareOptions "GET")] ∧
    (requestEffects w endpoint none bodyArg σ).filter Event.isFetch =
      [Event.fetch (TARGET_API w ++ endpoint) (bareOptions "GET")] := by
  have hb : ∀ body, buildOptions w "GET" body = .ok (bareOptions "GET") := by
    intro body
    simp [buildOptions, bareOptions]
  constructor <;>
  · simp only [requestEffects, makeMonitoredRequest, tryBlock, catchBlock, effectsSince,
      State.emit, State.startSpan, State.advance, Option.getD_some, Option.getD_none, hb]
    cases hf : w.fetch σ.requests (TARGET_API w ++ endpoint) (bareOptions "GET") with
    | rejects e dt =>
      cases hm : e.getMessage <;>
        simp [hm, hf, List.append_assoc, List.filter_cons, Event.isFetch]
    | resolves response dt =>
      cases hr : response.read with
      | fails e dt2 =>
        cases hm : e.getMessage <;>
          simp [hm, hr, hf, List.append_assoc, List.filter_cons, Event.isFetch]
      | text s dt2 =>
        simp [hr, hf, List.append_assoc, List.filter_cons, Event.isFetch]

/-! ## The period of the timer -/

/-- The digit character of `d` has the value `d`. -/
theorem digitValue_digitChar (d : Nat) (h : d < 10) :
    digitValue 10 (Nat.digitChar d) = some d := by
  interval_cases d <;> rfl

/-- A decimal digit is no white space, no sign and no radix mark, and it is a
digit of radix 10. -/
theorem decimalDigit_facts (c : Char) (h : IsDecimalDigit c) :
    isStrWhiteSpaceChar c = false ∧ c ≠ '-' ∧ c ≠ '+' ∧ c ≠ 'x' ∧ c ≠ 'X' ∧
      (digitValue 10 c).isSome = true := by
  obtain ⟨d, hd, rfl⟩ := h
  interval_cases d <;> decide

/-- The numeral that `toString` prints for `n` is a non-empty run of decimal
digits whose value is `n`. -/
theorem toDigitsCore_decimal (fuel : Nat) : ∀ n ds, n < fuel →
    ∃ l, Nat.toDigitsCore 10 fuel n ds = l ++ ds ∧ l ≠ [] ∧ (∀ c ∈ l, IsDecimalDigit c) ∧
      l.foldl decimalStep 0 = n := by
  induction fuel with
  | zero => intro n ds h; omega
  | succ fuel ih =>
    intro n ds h
    have hd : n % 10 < 10 := Nat.mod_lt _ (by decide)
    by_cases h0 : n / 10 = 0
    · refine ⟨[Nat.digitChar (n % 10)], by simp [Nat.toDigitsCore, h0], by simp, ?_, ?_⟩
      · intro c hc
        simp at hc
        exact ⟨n % 10, hd, hc⟩
      · simp [decimalStep, digitValue_digitChar _ hd]
        omega
    · obtain ⟨l, hl, hne, hdig, hval⟩ := ih (n / 10) (Nat.digitChar (n % 10) :: ds) (by omega)
      refine ⟨l ++ [Nat.digitChar (n % 10)], by simp [Nat.toDigitsCore, h0, hl], by simp, ?_, ?_⟩
      · intro c hc
        simp at hc
        rcases hc with hc | hc
        · exact hdig c hc
        · exact ⟨n % 10, hd, hc⟩
      · simp [List.foldl_append, hval, decimalStep, digitValue_digitChar _ hd]
        omega

/-- On a non-empty run of decimal digits `parseInt` yields its value. -/
theorem parseInt_decimal (l : List Char) (hne : l ≠ []) (hdig : ∀ c ∈ l, IsDecimalDigit c) :
    parseInt (String.mk l) = JsVal.num ((l.foldl decimalStep 0 : Nat) : Int) := by
  have hall : l.takeWhile (fun c => (digitValue 10 c).isSome) = l := by
    rw [List.takeWhile_eq_self_iff]
    intro c hc
    exact (decimalDigit_facts c (hdig c hc)).2.2.2.2.2
  cases l with
  | nil => exact absurd rfl hne
  | cons a rest =>
    have ha := decimalDigit_facts a (hdig a (by simp))
    have hhex : ¬ ((a :: rest).take 2 = ['0', 'x'] ∨ (a :: rest).take 2 = ['0', 'X']) := by
      cases rest with
      | nil => simp
      | cons b rest2 =>
        have hb := decimalDigit_facts b (hdig b (by simp))
        simp [hb.2.2.2.1, hb.2.2.2.2.1]
    have hdrop : (a :: rest).dropWhile isStrWhiteSpaceChar = a :: rest := by
      simp [List.dropWhile, ha.1]
    have hlist : (String.mk (a :: rest)).toList = a :: rest := rfl
    have hhead : ¬ ((a :: rest).head? = some '-' ∨ (a :: rest).head? = some '+') := by
      simp [ha.2.1, ha.2.2.1]
    simp only [parseInt, hlist, hdrop, if_neg hhead, hhex, decide_False, Bool.false_eq_true,
      if_false, hall]
    have hfirst : decimalStep 0 a = 0 * 10 + (digitValue 10 a).getD 0 := rfl
    simp [hfirst, ha.2.1]
    rfl

/-- The numeral of `n` is not the empty string, and `parseInt` reads `n` back
from it. -/
theorem parseInt_toString (n : Nat) :
    toString n ≠ "" ∧ parseInt (toString n) = JsVal.num n := by
  obtain ⟨l, hl, hne, hdig, hval⟩ := toDigitsCore_decimal (n + 1) n [] (Nat.lt_succ_self n)
  have hrepr : toString n = String.mk l := by
    show Nat.repr n = String.mk l
    simp [Nat.repr, Nat.toDigits, hl, List.asString]
  constructor
  · rw [hrepr]
    intro h
    exact hne (congrArg String.data h)
  · rw [hrepr, parseInt_decimal l hne hdig, hval]

/-- C9, counterexample.  With `MONITOR_INTERVAL_MS` set to `0`, to `-5` and to
`abc`, the period handed to `setInterval` is 0, -5 and `NaN`: not a positive
integer. -/
theorem interval_not_validated :
    timerPeriod (effectsSince initial (startPeriodicMonitoring (intervalWorld (some "0")) initial))
      = some (JsVal.num 0) ∧
    timerPeriod (effectsSince initial (startPeriodicMonitoring (intervalWorld (some "-5")) initial))
      = some (JsVal.num (-5)) ∧
    timerPeriod (effectsSince initial (startPeriodicMonitoring (intervalWorld (some "abc")) initial))
      = some JsVal.nan := by
  exact ⟨rfl, rfl, rfl⟩

/-- C9, amended.  The period `startPeriodicMonitoring` hands to `setInterval` is
30000 when `MONITOR_INTERVAL_MS` is unset and when it is the empty string, and
it is `n` when the key holds the decimal numeral of a positive integer `n` below
2^53.  (For other texts it is what `parseInt` makes of them, without check.) -/
theorem interval_from_environment (w : World) (σ : State) :
    (w.env "MONITOR_INTERVAL_MS" = none →
      timerPeriod (effectsSince σ (startPeriodicMonitoring w σ)) = some (JsVal.num 30000)) ∧
    (w.env "MONITOR_INTERVAL_MS" = some "" →
      timerPeriod (effectsSince σ (startPeriodicMonitoring w σ)) = some (JsVal.num 30000)) ∧
    (∀ n : Nat, 0 < n → n < 2 ^ 53 → w.env "MONITOR_INTERVAL_MS" = some (toString n) →
      timerPeriod (effectsSince σ (startPeriodicMonitoring w σ)) = some (JsVal.num n) ∧
      (0 : Int) < n) := by
  have hperiod : timerPeriod (effectsSince σ (startPeriodicMonitoring w σ)) =
      some (INTERVAL_MS w) := by
    simp [timerPeriod, effectsSince, startPeriodicMonitoring, State.emit, List.append_assoc,
      List.findSome?_cons]
  have hdefault : parseInt "30000" = JsVal.num 30000 := by rfl
  refine ⟨?_, ?_, ?_⟩
  · intro h
    rw [hperiod]
    simp [INTERVAL_MS, envOr, h, hdefault]
  · intro h
    rw [hperiod]
    simp [INTERVAL_MS, envOr, h, hdefault]
  · intro n hpos _ h
    rw [hperiod]
    refine ⟨?_, by exact_mod_cast hpos⟩
    simp [INTERVAL_MS, envOr, h, (parseInt_toString n).1, (parseInt_toString n).2]

/-- C9, witness: the key unset, empty, and set to `5000`. -/
theorem interval_from_environment_witness :
    timerPeriod (effectsSince initial (startPeriodicMonitoring (intervalWorld none) initial)) =
      some (JsVal.num 30000) ∧
    timerPeriod (effectsSince initial (startPeriodicMonitoring (intervalWorld (some "")) initial)) =
      some (JsVal.num 30000) ∧
    (timerPeriod (effectsSince initial
        (startPeriodicMonitoring (intervalWorld (some (toString 5000))) initial)) =
      some (JsVal.num (5000 : Nat)) ∧ (0 : Int) < (5000 : Nat)) :=
  ⟨(interval_from_environment (intervalWorld none) initial).1 rfl,
   (interval_from_environment (intervalWorld (some "")) initial).2.1 rfl,
   (interval_from_environment (intervalWorld (some (toString 5000))) initial).2.2 5000
     (by decide) (by norm_num) rfl⟩

/-! ## The probe cycle -/

/-- One call made while the span `cycleSpan` is open appends its effects to the
trace, takes one span handle, and shows in the schedule as the invocation
alone. -/
theorem request_in_schedule (w : World) (endpoint : String) (methodArg : Option String)
    (bodyArg : JsVal) (σ : State) (cycleSpan : Nat) (hspan : cycleSpan < σ.spans) :
    (makeMonitoredRequest w endpoint methodArg bodyArg σ).2.trace =
      σ.trace ++ requestEffects w endpoint methodArg bodyArg σ ∧
    (makeMonitoredRequest w endpoint methodArg bodyArg σ).2.spans = σ.spans + 1 ∧
    (requestEffects w endpoint methodArg bodyArg σ).filter (Event.inSchedule cycleSpan) =
      [Event.call endpoint methodArg bodyArg] := by
  have hne : σ.spans ≠ cycleSpan := by omega
  simp only [requestEffects, makeMonitoredRequest, tryBlock, catchBlock, effectsSince,
    State.emit, State.startSpan, State.advance]
  cases hb : buildOptions w (methodArg.getD "GET")
      (if bodyArg = JsVal.undefined then JsVal.null else bodyArg) with
  | error e =>
    cases hm : e.getMessage <;>
      simp [hm, hne, List.append_assoc, List.filter_cons, Event.inSchedule]
  | ok options =>
    cases hf : w.fetch σ.requests (TARGET_API w ++ endpoint) options with
    | rejects e dt =>
      cases hm : e.getMessage <;>
        simp [hm, hf, hne, List.append_assoc, List.filter_cons, Event.inSchedule]
    | resolves response dt =>
      cases hr : response.read with
      | fails e dt2 =>
        cases hm : e.getMessage <;>
          simp [hm, hr, hf, hne, List.append_assoc, List.filter_cons, Event.inSchedule]
      | text s dt2 =>
        simp [hr, hf, hne, List.append_assoc, List.filter_cons, Event.inSchedule]

/-- The loop over the endpoints, when every request returns an outcome: it runs
to the end, and its schedule is one invocation and one delay per endpoint, in
the order of the list. -/
theorem probeEndpoints_schedule (w : World)
    (hreturns : ∀ endpoint σ, ∃ o,
      (makeMonitoredRequest w endpoint (some "GET") JsVal.undefined σ).1 = .ok o)
    (cycleSpan : Nat) : ∀ (endpoints : List String) (σ : State), cycleSpan < σ.spans →
    (probeEndpoints w endpoints σ).1 = .ok () ∧
    ∃ t, (probeEndpoints w endpoints σ).2.trace = σ.trace ++ t ∧
      t.filter (Event.inSchedule cycleSpan) =
        endpoints.flatMap fun endpoint =>
          [Event.call (jsTrim endpoint) (some "GET") JsVal.undefined, Event.delay 1000] := by
  intro endpoints
  induction endpoints with
  | nil =>
    intro σ _
    exact ⟨rfl, [], by simp [probeEndpoints], by simp⟩
  | cons endpoint rest ih =>
    intro σ hspan
    obtain ⟨o, ho⟩ := hreturns (jsTrim endpoint) σ
    obtain ⟨htrace, hspans, hfilter⟩ :=
      request_in_schedule w (jsTrim endpoint) (some "GET") JsVal.undefined σ cycleSpan hspan
    cases hcall : makeMonitoredRequest w (jsTrim endpoint) (some "GET") JsVal.undefined σ with
    | mk result σ1 =>
      rw [hcall] at ho htrace hspans
      simp only at ho htrace hspans
      subst ho
      obtain ⟨hok, t, ht, hft⟩ := ih ((σ1.emit (.delay 1000)).advance 1000)
        (by simp [State.emit, State.advance, hspans]; omega)
      have hstep : probeEndpoints w (endpoint :: rest) σ =
          probeEndpoints w rest ((σ1.emit (.delay 1000)).advance 1000) := by
        simp only [probeEndpoints, hcall]
      rw [hstep]
      refine ⟨hok, requestEffects w (jsTrim endpoint) (some "GET") JsVal.undefined σ ++
        [Event.delay 1000] ++ t, ?_, ?_⟩
      · rw [ht]
        simp [State.emit, State.advance, htrace, List.append_assoc]
      · simp [List.filter_append, hfilter, hft, Event.inSchedule]

/-- What `jsTrim` returns is its argument without the leading and trailing
white space. -/
theorem jsTrim_isTrimOf (s : String) : IsTrimOf s (jsTrim s) := by
  have hlist : (jsTrim s).toList =
      ((s.toList.dropWhile isStrWhiteSpaceChar).reverse.dropWhile isStrWhiteSpaceChar).reverse :=
    rfl
  have hsplit1 := List.takeWhile_append_dropWhile isStrWhiteSpaceChar s.toList
  have hsplit2 := List.takeWhile_append_dropWhile isStrWhiteSpaceChar
    (s.toList.dropWhile isStrWhiteSpaceChar).reverse
  have hmid : s.toList.dropWhile isStrWhiteSpaceChar =
      (jsTrim s).toList ++
        ((s.toList.dropWhile isStrWhiteSpaceChar).reverse.takeWhile
          isStrWhiteSpaceChar).reverse := by
    rw [hlist, ← List.reverse_append, hsplit2, List.reverse_reverse]
  have hlast : ∀ c, (jsTrim s).toList.getLast? = some c → isStrWhiteSpaceChar c = false := by
    intro c hc
    rw [hlist, List.getLast?_reverse] at hc
    have h := List.head?_dropWhile_not isStrWhiteSpaceChar
      (s.toList.dropWhile isStrWhiteSpaceChar).reverse
    rw [hc] at h
    exact h
  refine ⟨s.toList.takeWhile isStrWhiteSpaceChar,
    ((s.toList.dropWhile isStrWhiteSpaceChar).reverse.takeWhile isStrWhiteSpaceChar).reverse,
    ?_, ?_, ?_, ?_, hlast⟩
  · rw [List.append_assoc, ← hmid, hsplit1]
  · intro c hc
    exact List.mem_takeWhile_imp hc
  · intro c hc
    exact List.mem_takeWhile_imp (List.mem_reverse.mp hc)
  · intro c hc
    have h := List.head?_dropWhile_not isStrWhiteSpaceChar s.toList
    rw [hmid, List.head?_append, hc] at h
    simpa using h

/-- C5.  When every request returns an outcome, of whatever kind, one probe
cycle over a list of N endpoints runs to its end and its schedule is: the start
of the cycle span; then for each endpoint, in the order of the list, one call
`makeMonitoredRequest(endpoint.trim(), "GET")` without a body followed by one
delay of 1000 ms; then the end of the cycle span, after the delay of the last
endpoint.  So the cycle makes N calls, in order, whatever the outcomes are.  The
argument of each call is the trimmed endpoint: the endpoint without its leading
and trailing white space. -/
theorem probe_cycle_schedule (w : World) (endpoints : List String) (σ : State)
    (hreturns : ∀ endpoint σ, ∃ o,
      (makeMonitoredRequest w endpoint (some "GET") JsVal.undefined σ).1 = .ok o) :
    (probeCycle w endpoints σ).1 = .ok () ∧
    (effectsSince σ (probeCycle w endpoints σ).2).filter (Event.inSchedule σ.spans) =
      [Event.startSpan σ.spans "periodic-health-check"] ++
      (endpoints.flatMap fun endpoint =>
        [Event.call (jsTrim endpoint) (some "GET") JsVal.undefined, Event.delay 1000]) ++
      [Event.endSpan σ.spans] ∧
    ((effectsSince σ (probeCycle w endpoints σ).2).filter Event.isCall).length =
      endpoints.length ∧
    (∀ endpoint ∈ endpoints, IsTrimOf endpoint (jsTrim endpoint)) := by
  obtain ⟨hok, t, ht, hft⟩ := probeEndpoints_schedule w hreturns σ.spans endpoints
    (σ.startSpan "periodic-health-check").2 (by simp [State.startSpan])
  cases hloop : probeEndpoints w endpoints (σ.startSpan "periodic-health-check").2 with
  | mk result σ1 =>
    rw [hloop] at hok ht
    simp only at hok ht
    subst hok
    simp only [State.startSpan] at hloop ht
    have hcycle : probeCycle w endpoints σ = (.ok (), σ1.emit (.endSpan σ.spans)) := by
      simp only [probeCycle, State.startSpan, hloop]
    have htrace : (probeCycle w endpoints σ).2.trace =
        σ.trace ++ ([Event.startSpan σ.spans "periodic-health-check"] ++ t ++
          [Event.endSpan σ.spans]) := by
      rw [hcycle]
      simp [State.emit, ht, List.append_assoc]
    have hschedule : (effectsSince σ (probeCycle w endpoints σ).2).filter
        (Event.inSchedule σ.spans) =
        [Event.startSpan σ.spans "periodic-health-check"] ++
        (endpoints.flatMap fun endpoint =>
          [Event.call (jsTrim endpoint) (some "GET") JsVal.undefined, Event.delay 1000]) ++
        [Event.endSpan σ.spans] := by
      simp [effectsSince, htrace, List.filter_append, hft, Event.inSchedule, List.filter_cons]
    have hcalls : ∀ l : List String,
        ((l.flatMap fun endpoint =>
          [Event.call (jsTrim endpoint) (some "GET") JsVal.undefined, Event.delay 1000]).filter
          Event.isCall).length = l.length := by
      intro l
      induction l with
      | nil => rfl
      | cons a l ih => simp [List.filter_cons, Event.isCall, ih]
    have hsub : ∀ l : List Event,
        l.filter Event.isCall = (l.filter (Event.inSchedule σ.spans)).filter Event.isCall := by
      intro l
      rw [List.filter_filter]
      congr 1
      funext e
      cases e <;> simp [Event.isCall, Event.inSchedule]
    refine ⟨by rw [hcycle], ?_, ?_, ?_⟩
    · exact hschedule
    · rw [hsub, hschedule]
      simp [List.filter_append, List.filter_cons, Event.isCall, hcalls]
    · intro endpoint _
      exact jsTrim_isTrimOf endpoint

/-- A call returns an outcome exactly when the value thrown inside its `try`
block, if any, is neither `undefined` nor `null`. -/
theorem returns_outcome_iff (w : World) (endpoint : String) (methodArg : Option String)
    (bodyArg : JsVal) (σ : State) :
    (∃ o, (makeMonitoredRequest w endpoint methodArg bodyArg σ).1 = .ok o) ↔
      raised w endpoint methodArg bodyArg σ ≠ some JsVal.undefined ∧
      raised w endpoint methodArg bodyArg σ ≠ some JsVal.null := by
  simp only [raised, makeMonitoredRequest, tryBlock, catchBlock, State.emit, State.startSpan,
    State.advance]
  cases hb : buildOptions w (methodArg.getD "GET")
      (if bodyArg = JsVal.undefined then JsVal.null else bodyArg) with
  | error e => cases e <;> simp [JsVal.getMessage]
  | ok options =>
    cases hf : w.fetch σ.requests (TARGET_API w ++ endpoint) options with
    | rejects e dt => cases e <;> simp [hf, JsVal.getMessage]
    | resolves response dt =>
      cases hr : response.read with
      | fails e dt2 => cases e <;> simp [hf, hr, JsVal.getMessage]
      | text s dt2 => simp [hf, hr]

/-- Against a transport that refuses every connection, every `GET` request
returns an outcome. -/
theorem refusingWorld_returns (endpoint : String) (σ : State) :
    ∃ o, (makeMonitoredRequest refusingWorld endpoint (some "GET") JsVal.undefined σ).1 =
      .ok o := by
  rw [returns_outcome_iff]
  simp [raised, buildOptions, refusingWorld, uniformWorld, refusesConnection]

/-- C5, witness: the endpoints `/`, ` /health` and `/status `, the last two with
white space around them, and every request failing.  The calls are made with
`/`, `/health` and `/status`. -/
theorem probe_cycle_schedule_witness :
    (∀ endpoint σ, ∃ o,
      (makeMonitoredRequest refusingWorld endpoint (some "GET") JsVal.undefined σ).1 = .ok o) ∧
    (probeCycle refusingWorld ["/", " /health", "/status "] initial).1 = .ok () ∧
    (effectsSince initial (probeCycle refusingWorld ["/", " /health", "/status "] initial).2).filter
        (Event.inSchedule 0) =
      [Event.startSpan 0 "periodic-health-check",
       Event.call "/" (some "GET") JsVal.undefined, Event.delay 1000,
       Event.call "/health" (some "GET") JsVal.undefined, Event.delay 1000,
       Event.call "/status" (some "GET") JsVal.undefined, Event.delay 1000,
       Event.endSpan 0] ∧
    ((effectsSince initial
        (probeCycle refusingWorld ["/", " /health", "/status "] initial).2).filter
        Event.isCall).length = 3 ∧
    (∀ endpoint ∈ ["/", " /health", "/status "], IsTrimOf endpoint (jsTrim endpoint)) :=
  ⟨refusingWorld_returns,
   probe_cycle_schedule refusingWorld ["/", " /health", "/status "] initial refusingWorld_returns⟩

/-- When a request throws (its transport rejected with `null`), the exception
leaves the loop and the cycle: the later endpoints are not probed and the span
of the cycle is not ended. -/
theorem probe_cycle_leaves_on_exception :
    probeCycle nullRejectingWorld ["/", "/health"] initial =
      (.error (JsVal.cannotRead "null"),
       { clock := 3, spans := 2, requests := 1
         trace :=
          [.startSpan 0 "periodic-health-check",
           .call "/" (some "GET") JsVal.undefined,
           .startSpan 1 "GET /",
           .log "info" "Making GET request to https://api.gatewayz.ai/" [],
           .fetch "https://api.gatewayz.ai/" (bareOptions "GET"),
           .setAttribute 1 "error" (.bool true),
           .endSpan 1] }) := by
  rfl

end Monitor
